import Mathlib

/-!
Verification of the metricflow slice: the semantic-model query resolver
(data sources, measures, dimensions, identifiers, the suggestion engine and
`parse_and_validate_query`) and the dbt-manifest-to-model transformation
(`yet_another_dbt_to_metricflow.py`, `dbt_dir_to_model.py`).

The dbt transformation is embedded directly from the Python source.  The query
resolver and suggestion engine are not part of the source slice (only their
tests are), so they are modelled from the specification, pinned down by the
observed outputs recorded in `test_query_parser_suggestions.py`.
-/

namespace MetricFlow

/-! ### Semantic model objects (from `metricflow.model.objects`) -/

/-- A measure on a data source.  `agg` is kept as the aggregation-type name
string; `create_metric` is the optional flag for auto-generating a proxy
metric. -/
structure Measure where
  name : String
  agg : String
  expr : Option String := none
  description : Option String := none
  create_metric : Option Bool := none
deriving DecidableEq, Repr

/-- Type parameters of a time dimension. -/
structure DimensionTypeParams where
  is_primary : Option Bool := none
  time_granularity : Option String := none
deriving DecidableEq, Repr

/-- A dimension on a data source; `type` is the dimension-type name
(categorical or time). -/
structure Dimension where
  name : String
  type : String
  type_params : Option DimensionTypeParams := none
  expr : Option String := none
  description : Option String := none
deriving DecidableEq, Repr

/-- An identifier (join key) on a data source; `type` is the role name
(primary, foreign or unique). -/
structure Identifier where
  name : String
  type : String
  expr : Option String := none
  description : Option String := none
deriving DecidableEq, Repr

/-- A data source with its owned measures, dimensions and identifiers. -/
structure DataSource where
  name : String
  description : String := ""
  sql_table : Option String := none
  sql_query : Option String := none
  measures : List Measure := []
  dimensions : List Dimension := []
  identifiers : List Identifier := []
deriving DecidableEq, Repr

/-- A metric: a name and the names of the measures backing it (the simple
proxy case is one measure with the same name). -/
structure Metric where
  name : String
  measures : List String := []
deriving DecidableEq, Repr

/-- The user-configured model: data sources plus metrics. -/
structure UserConfiguredModel where
  data_sources : List DataSource
  metrics : List Metric
deriving DecidableEq, Repr

/-- A validation issue produced while building a model. -/
structure ValidationIssue where
  message : String
deriving DecidableEq, Repr

/-- `ValidationError(message=...)` constructor from the source. -/
def ValidationError (message : String) : ValidationIssue :=
  { message := message }

/-- Grouped validation results; the grouping itself is external to the slice,
so it is kept as the plain issue sequence. -/
structure ModelValidationResults where
  issues : List ValidationIssue
deriving DecidableEq, Repr

/-- `ModelValidationResults.from_issues_sequence`. -/
def ModelValidationResults.from_issues_sequence (l : List ValidationIssue) :
    ModelValidationResults :=
  { issues := l }

/-- Result of building a model: the model plus validation issues. -/
structure ModelBuildResult where
  model : UserConfiguredModel
  issues : ModelValidationResults
deriving DecidableEq, Repr

/-! ### Suggestion engine

Modelled from the spec: compute an edit-distance-based similarity (the
ratio-based sequence matcher `2 * LCS(a, b) / (len a + len b)`) between the
input and each candidate; keep candidates strictly above the one-half
similarity threshold; sort by descending similarity (a stable sort, so tied
candidates keep their vocabulary order — this reproduces the ordered lists
recorded in the tests); cap the result at 6; never return the input itself. -/

/-- One dynamic-programming row step for the longest-common-subsequence
computation: given the previous row `prev` (indexed by prefixes of `bs`,
including the empty prefix) and the entry `left` just computed to the left,
produce the rest of the current row for character `c`. -/
def lcsRow (c : Char) : List Char → List Nat → Nat → List Nat
  | [], _, _ => []
  | _ :: _, [], _ => []
  | b :: bs, p :: ps, left =>
    let cur := if c = b then p + 1 else max (ps.headD 0) left
    cur :: lcsRow c bs ps cur

/-- Length of a longest common subsequence of two character lists, by
row-by-row dynamic programming. -/
def lcsChars (as bs : List Char) : Nat :=
  (as.foldl (fun prev c => 0 :: lcsRow c bs prev 0)
    (List.replicate (bs.length + 1) 0)).getLastD 0

/-- Longest common subsequence length of two strings. -/
def lcsStr (a b : String) : Nat := lcsChars a.data b.data

/-- Numerator of the sequence-matcher similarity ratio
`2 * LCS / (|q| + |c|)` of candidate `c` against query `q`. -/
def simNum (q c : String) : Nat := 2 * lcsStr q c

/-- Denominator of the similarity ratio. -/
def simDen (q c : String) : Nat := q.length + c.length

/-- `a` is strictly less similar to `q` than `b`, by cross-multiplied
comparison of the similarity fractions. -/
def simLt (q a b : String) : Prop :=
  simNum q a * simDen q b < simNum q b * simDen q a

/-- `a` and `b` are exactly equally similar to `q`. -/
def simEq (q a b : String) : Prop :=
  simNum q a * simDen q b = simNum q b * simDen q a

instance simLt.instDecidable (q a b : String) : Decidable (simLt q a b) :=
  Nat.decLt _ _

instance simEq.instDecidable (q a b : String) : Decidable (simEq q a b) :=
  Nat.decEq _ _

/-- Deduplicate a vocabulary, keeping the first occurrence of each name. -/
def dedupFirst : List String → List String
  | [] => []
  | x :: xs => x :: (dedupFirst xs).filter (fun y => y ≠ x)

/-- Candidates considered for suggestions: the deduplicated vocabulary, minus
the input itself, restricted to similarity strictly above one half (the
fraction `2L/(|q|+|c|)` exceeds `1/2` exactly when `|q|+|c| < 4L`). -/
def candList (q : String) (vocab : List String) : List String :=
  (dedupFirst vocab).filter (fun c => c ≠ q ∧ simDen q c < 4 * lcsStr q c)

/-- Order used by the stable descending sort: candidates are tagged with their
vocabulary position, and compared by descending similarity with ties broken by
ascending position. -/
def sortRel (q : String) (a b : Nat × String) : Prop :=
  simLt q b.2 a.2 ∨ (simEq q a.2 b.2 ∧ a.1 ≤ b.1)

instance sortRel.instDecidable (q : String) : DecidableRel (sortRel q) :=
  fun a b =>
    inferInstanceAs (Decidable (simLt q b.2 a.2 ∨
      (simEq q a.2 b.2 ∧ a.1 ≤ b.1)))

theorem lcsChars_nil (bs : List Char) : lcsChars [] bs = 0 := by
  unfold lcsChars
  rw [List.foldl_nil]
  induction bs.length with
  | zero => rfl
  | succ n ih =>
    rw [List.replicate_succ, List.getLastD_cons]
    rcases n with _ | n2
    · rfl
    · rw [List.replicate_succ, List.getLastD_cons] at ih ⊢
      exact ih

/-- If some candidate has positive similarity numerator against `q` then `q`
is nonempty, so every similarity denominator is positive. -/
theorem simDen_pos_of_simNum_pos {q c : String} (h : 0 < simNum q c)
    (d : String) : 0 < simDen q d := by
  have hq : q.length ≠ 0 := by
    intro h0
    have hdata : q.data = [] := List.length_eq_zero.mp h0
    have : simNum q c = 0 := by
      unfold simNum lcsStr
      rw [hdata, lcsChars_nil]
    omega
  unfold simDen
  omega

theorem simNum_pos_of_prod {q a b : String}
    (h : 0 < simNum q a * simDen q b) : 0 < simNum q a := by
  rcases Nat.eq_zero_or_pos (simNum q a) with h0 | h0
  · rw [h0, Nat.zero_mul] at h
    exact absurd h (lt_irrefl 0)
  · exact h0

instance sortRel.instIsTotal (q : String) : IsTotal (Nat × String) (sortRel q) := by
  constructor
  intro a b
  rcases Nat.lt_trichotomy (simNum q a.2 * simDen q b.2)
    (simNum q b.2 * simDen q a.2) with h | h | h
  · exact Or.inr (Or.inl h)
  · rcases Nat.le_total a.1 b.1 with hn | hn
    · exact Or.inl (Or.inr ⟨h, hn⟩)
    · exact Or.inr (Or.inr ⟨h.symm, hn⟩)
  · exact Or.inl (Or.inl h)

instance sortRel.instIsTrans (q : String) : IsTrans (Nat × String) (sortRel q) := by
  constructor
  intro a b c hab hbc
  unfold sortRel simLt simEq at hab hbc ⊢
  set na := simNum q a.2 with hna
  set nb := simNum q b.2 with hnb
  set nc := simNum q c.2 with hnc
  set da := simDen q a.2 with hda
  set db := simDen q b.2 with hdb
  set dc := simDen q c.2 with hdc
  rcases hab with hab | ⟨hab, hab2⟩ <;> rcases hbc with hbc | ⟨hbc, hbc2⟩
  · -- nb * da < na * db and nc * db < nb * dc imply nc * da < na * dc
    refine Or.inl ?_
    have hpa : 0 < na * db := Nat.lt_of_le_of_lt (Nat.zero_le _) hab
    have hpb : 0 < nb * dc := Nat.lt_of_le_of_lt (Nat.zero_le _) hbc
    have hna2 : 0 < na := simNum_pos_of_prod hpa
    have hdb2 : 0 < db := simDen_pos_of_simNum_pos hna2 _
    have hdc2 : 0 < dc := simDen_pos_of_simNum_pos hna2 _
    have h1 : nb * da * dc < na * db * dc := (Nat.mul_lt_mul_right hdc2).mpr hab
    have h2 : nc * db * da ≤ nb * dc * da :=
      Nat.mul_le_mul_right da (Nat.le_of_lt hbc)
    have h3 : db * (nc * da) < db * (na * dc) := by
      calc db * (nc * da) = nc * db * da := by ring
        _ ≤ nb * dc * da := h2
        _ = nb * da * dc := by ring
        _ < na * db * dc := h1
        _ = db * (na * dc) := by ring
    exact Nat.lt_of_mul_lt_mul_left h3
  · -- nb * da < na * db and sim b = sim c imply nc * da < na * dc
    refine Or.inl ?_
    have hpa : 0 < na * db := Nat.lt_of_le_of_lt (Nat.zero_le _) hab
    have hna2 : 0 < na := simNum_pos_of_prod hpa
    have hdb2 : 0 < db := simDen_pos_of_simNum_pos hna2 _
    have hdc2 : 0 < dc := simDen_pos_of_simNum_pos hna2 _
    have h1 : nb * da * dc < na * db * dc := (Nat.mul_lt_mul_right hdc2).mpr hab
    have h3 : db * (nc * da) < db * (na * dc) := by
      calc db * (nc * da) = nc * db * da := by ring
        _ = nb * dc * da := by rw [hbc]
        _ = nb * da * dc := by ring
        _ < na * db * dc := h1
        _ = db * (na * dc) := by ring
    exact Nat.lt_of_mul_lt_mul_left h3
  · -- sim a = sim b and nc * db < nb * dc imply nc * da < na * dc
    refine Or.inl ?_
    have hpb : 0 < nb * dc := Nat.lt_of_le_of_lt (Nat.zero_le _) hbc
    have hnb2 : 0 < nb := simNum_pos_of_prod hpb
    have hda2 : 0 < da := simDen_pos_of_simNum_pos hnb2 _
    have hdb2 : 0 < db := simDen_pos_of_simNum_pos hnb2 _
    have h1 : nc * db * da < nb * dc * da := (Nat.mul_lt_mul_right hda2).mpr hbc
    have h3 : db * (nc * da) < db * (na * dc) := by
      calc db * (nc * da) = nc * db * da := by ring
        _ < nb * dc * da := h1
        _ = nb * da * dc := by ring
        _ = na * db * dc := by rw [hab]
        _ = db * (na * dc) := by ring
    exact Nat.lt_of_mul_lt_mul_left h3
  · -- both similarity ties: tie is transitive, indices chain
    refine Or.inr ⟨?_, Nat.le_trans hab2 hbc2⟩
    rcases Nat.eq_zero_or_pos db with hdb0 | hdb0
    · -- q and b are both empty, so every numerator vanishes
      have hq : q.length = 0 := by
        rw [hdb] at hdb0
        unfold simDen at hdb0
        omega
      have hdata : q.data = [] := List.length_eq_zero.mp hq
      have hz : ∀ x : String, simNum q x = 0 := by
        intro x
        unfold simNum lcsStr
        rw [hdata, lcsChars_nil]
      show na * dc = nc * da
      rw [hna, hnc, hz, hz, Nat.zero_mul, Nat.zero_mul]
    · have h3 : db * (na * dc) = db * (nc * da) := by
        calc db * (na * dc) = na * db * dc := by ring
          _ = nb * da * dc := by rw [hab]
          _ = nb * dc * da := by ring
          _ = nc * db * da := by rw [hbc]
          _ = db * (nc * da) := by ring
      exact Nat.eq_of_mul_eq_mul_left hdb0 h3

/-- The suggestion engine: the closest matches to `q` from `vocab`, at most 6,
strictly above the similarity threshold, in descending-similarity order with
ties kept in vocabulary order. -/
def suggest (q : String) (vocab : List String) : List String :=
  ((List.insertionSort (sortRel q) (candList q vocab).enum).map Prod.snd).take 6

/-- The ordering the suggestion list obeys, stated on the output strings:
either strictly more similar, or equally similar and earlier in the candidate
vocabulary. -/
def tieOrder (q : String) (vocab : List String) (c d : String) : Prop :=
  simLt q d c ∨
    (simEq q c d ∧
      (candList q vocab).indexOf c < (candList q vocab).indexOf d)

/-! ### Query validator

Modelled from the spec: `parse_and_validate_query(metric_names,
group_by_names)` resolves each metric against the model's metrics (failing
with `UnknownMetric` plus suggestions over metric names and metric-generating
measure names), computes the local data sources hosting the requested
metrics' measures, and resolves each group-by name: a name resolves when it
is a local element of a local data source, or a qualified
`identifier__dimension` form reachable over a shared identifier whose role on
the reached side is primary or unique.  A group-by whose element name is
nowhere in the model fails with `UnknownElement` plus suggestions over all
dimension and identifier names; group-bys that are in the model but do not
resolve are batched into a single `UnresolvableDimension` error naming all of
them and the requested metrics, with suggestions over the dimension names
reachable from the local data sources. -/

/-- Typed query errors of the resolver. -/
inductive QueryError where
  | unknownMetric (name : String) (suggestions : List String)
  | unknownElement (name : String) (suggestions : List String)
  | unresolvableDimension (names : List String) (metric_names : List String)
      (suggestions : List (String × List String))
deriving DecidableEq, Repr

/-- A resolved query: the metrics and each group-by with its join path
(empty for local elements, the identifier hop otherwise). -/
structure ResolvedQuery where
  metric_names : List String
  group_bys : List (String × List String)
deriving DecidableEq, Repr

/-- First-occurrence split of a character list at the separator `__`. -/
def splitDunder : List Char → Option (List Char × List Char)
  | [] => none
  | '_' :: '_' :: rest => some ([], rest)
  | c :: rest => (splitDunder rest).map (fun p => (c :: p.1, p.2))

/-- Split a qualified `identifier__element` group-by name into its identifier
part and element part; `none` for a bare name. -/
def splitQualified (g : String) : Option (String × String) :=
  (splitDunder g.data).map (fun p => (String.mk p.1, String.mk p.2))

/-- The element part of a (possibly qualified) group-by name. -/
def element_name (g : String) : String :=
  match splitQualified g with
  | some p => p.2
  | none => g

/-- All bare dimension and identifier names of the model, the vocabulary for
`UnknownElement` suggestions. -/
def element_vocab (m : UserConfiguredModel) : List String :=
  dedupFirst (m.data_sources.flatMap (fun ds =>
    ds.dimensions.map Dimension.name ++ ds.identifiers.map Identifier.name))

/-- Metric names plus the names of measures flagged `create_metric`, the
vocabulary for `UnknownMetric` suggestions. -/
def metric_vocab (m : UserConfiguredModel) : List String :=
  dedupFirst (m.metrics.map Metric.name ++
    m.data_sources.flatMap (fun ds =>
      (ds.measures.filter (fun me => me.create_metric = some true)).map
        Measure.name))

/-- The data sources hosting a measure backing one of the requested
metrics. -/
def local_data_sources (m : UserConfiguredModel) (metric_names : List String) :
    List DataSource :=
  let requested :=
    (m.metrics.filter (fun mt => metric_names.contains mt.name)).flatMap
      Metric.measures
  m.data_sources.filter (fun ds =>
    ds.measures.any (fun me => requested.contains me.name))

/-- Data sources joinable to `ds` over identifier `idName`: they expose an
identifier of that name whose role is primary or unique. -/
def joined_sources (m : UserConfiguredModel) (ds : DataSource)
    (idName : String) : List DataSource :=
  m.data_sources.filter (fun other =>
    other.name ≠ ds.name &&
      other.identifiers.any (fun i =>
        i.name = idName && (i.type = "primary" || i.type = "unique")))

/-- A bare group-by name is a local element of one of the local data
sources. -/
def resolves_local (lds : List DataSource) (g : String) : Bool :=
  lds.any (fun ds =>
    ds.dimensions.any (fun d => d.name = g) ||
      ds.identifiers.any (fun i => i.name = g))

/-- A qualified `identifier__dimension` group-by resolves over one join hop
from a local data source. -/
def resolves_qualified (m : UserConfiguredModel) (lds : List DataSource)
    (g : String) : Bool :=
  match splitQualified g with
  | none => false
  | some p =>
    lds.any (fun ds =>
      ds.identifiers.any (fun i => i.name = p.1) &&
        (joined_sources m ds p.1).any (fun other =>
          other.dimensions.any (fun d => d.name = p.2)))

/-- A group-by name resolves from the local data sources. -/
def resolvable (m : UserConfiguredModel) (lds : List DataSource) (g : String) :
    Bool :=
  resolves_local lds g || resolves_qualified m lds g

/-- Dimension names reachable from the local data sources: their own
dimensions plus qualified forms of dimensions one identifier hop away; the
vocabulary for `UnresolvableDimension` suggestions. -/
def reachable_dim_vocab (m : UserConfiguredModel) (lds : List DataSource) :
    List String :=
  dedupFirst (lds.flatMap (fun ds => ds.dimensions.map Dimension.name) ++
    lds.flatMap (fun ds => ds.identifiers.flatMap (fun i =>
      (joined_sources m ds i.name).flatMap (fun other =>
        other.dimensions.map (fun d => i.name ++ "__" ++ d.name)))))

/-- The join path recorded for a resolved group-by. -/
def resolved_path (lds : List DataSource) (g : String) : List String :=
  if resolves_local lds g then []
  else
    match splitQualified g with
    | some p => [p.1]
    | none => []

/-- The requested group-bys that fail to resolve from the local data
sources. -/
def failed_group_bys (m : UserConfiguredModel)
    (metric_names group_by_names : List String) : List String :=
  group_by_names.filter (fun g =>
    !(resolvable m (local_data_sources m metric_names) g))

/-- The query validator entry point.  Modelled from the spec as described
above; the error contents reproduce the observed test outputs. -/
def parse_and_validate_query (m : UserConfiguredModel)
    (metric_names group_by_names : List String) :
    Except QueryError ResolvedQuery :=
  match metric_names.find? (fun n =>
      !(m.metrics.any (fun mt => mt.name = n))) with
  | some bad => .error (.unknownMetric bad (suggest bad (metric_vocab m)))
  | none =>
    let lds := local_data_sources m metric_names
    match group_by_names.find? (fun g =>
        !((element_vocab m).contains (element_name g))) with
    | some badg =>
      .error (.unknownElement badg
        (suggest (element_name badg) (element_vocab m)))
    | none =>
      let failed := failed_group_bys m metric_names group_by_names
      if failed.isEmpty then
        .ok { metric_names := metric_names,
              group_bys := group_by_names.map (fun g => (g, resolved_path lds g)) }
      else
        .error (.unresolvableDimension failed metric_names
          (failed.map (fun g => (g, suggest g (reachable_dim_vocab m lds)))))

/-- Modelled from the spec: the upstream model-build pipeline auto-generates
a trivial one-measure proxy metric for each measure flagged
`create_metric`. -/
def create_proxy_metrics (dss : List DataSource) : List Metric :=
  dss.flatMap (fun ds =>
    (ds.measures.filter (fun me => me.create_metric = some true)).map
      (fun me => { name := me.name, measures := [me.name] }))

/-! ### Test fixtures

The two data sources of `test_query_parser_suggestions.py`
(`EXTENDED_BOOKINGS_YAML` and `LISTINGS_YAML`), transcribed. -/

/-- The `bookings_source` data source of the test fixtures. -/
def bookings_source : DataSource :=
  { name := "bookings_source",
    sql_query := some "SELECT * FROM bookings_source_table",
    measures :=
      [{ name := "bookings", expr := some "1", agg := "sum",
         create_metric := some true },
       { name := "instant_bookings", expr := some "is_instant",
         agg := "sum_boolean", create_metric := some true },
       { name := "booking_value", agg := "sum", create_metric := some true },
       { name := "max_booking_value", agg := "max",
         expr := some "booking_value", create_metric := some true },
       { name := "min_booking_value", agg := "min",
         expr := some "booking_value", create_metric := some true },
       { name := "bookers", expr := some "guest_id", agg := "count_distinct",
         create_metric := some true },
       { name := "average_booking_value", expr := some "booking_value",
         agg := "average", create_metric := some true },
       { name := "booking_payments", expr := some "booking_value",
         agg := "sum", create_metric := some true },
       { name := "referred_bookings", expr := some "referrer_id",
         agg := "count", create_metric := some true }],
    dimensions :=
      [{ name := "is_instant", type := "categorical" },
       { name := "ds", type := "time",
         type_params := some { is_primary := some true,
                               time_granularity := some "day" } }],
    identifiers :=
      [{ name := "listing", type := "foreign", expr := some "listing_id" }] }

/-- The `listings_latest` data source of the test fixtures. -/
def listings_latest : DataSource :=
  { name := "listings_latest",
    description := "listings_latest",
    sql_table := some "schema.table",
    measures := [{ name := "listings", expr := some "1", agg := "sum" }],
    dimensions :=
      [{ name := "ds", type := "time", expr := some "created_at",
         type_params := some { is_primary := some true,
                               time_granularity := some "day" } },
       { name := "created_at", type := "time",
         type_params := some { time_granularity := some "day" } },
       { name := "country_latest", type := "categorical",
         expr := some "country" },
       { name := "capacity_latest", type := "categorical",
         expr := some "capacity" }],
    identifiers :=
      [{ name := "listing", type := "primary", expr := some "listing_id" },
       { name := "user", type := "foreign", expr := some "user_id" }] }

/-- The one-data-source model of Scenarios A and B. -/
def scenario_ab_model : UserConfiguredModel :=
  { data_sources := [bookings_source],
    metrics := create_proxy_metrics [bookings_source] }

/-- The two-data-source model of Scenario C. -/
def scenario_c_model : UserConfiguredModel :=
  { data_sources := [bookings_source, listings_latest],
    metrics := create_proxy_metrics [bookings_source, listings_latest] }

/-! ### dbt manifest transformation

Embedded from `yet_another_dbt_to_metricflow.py`.  The dbt `Manifest`,
`Node` and `ColumnInfo` classes are external; only the fields the
transformer reads are modelled.  The enum lookups
(`AggregationType.for_name` and friends) and `DimensionTypeParams.parse_obj`
are external helpers; they are modelled as keeping the given name string
(on the inputs the transformer is specified for they merely convert the
string to the enum member of the same name; an invalid name raises an
uncaught exception in Python, which no claim exercises). -/

/-- External `AggregationType.for_name`, modelled as the name itself. -/
def AggregationType.for_name (s : String) : String := s

/-- External `IdentifierType.for_name`, modelled as the name itself. -/
def IdentifierType.for_name (s : String) : String := s

/-- External `DimensionType.for_name`, modelled as the name itself. -/
def DimensionType.for_name (s : String) : String := s

/-- External `DimensionTypeParams.parse_obj`, modelled on already-structured
type parameters. -/
def DimensionTypeParams.parse_obj (d : DimensionTypeParams) :
    DimensionTypeParams := d

/-- An entry of `model.meta.mf.measures`; `name` and `agg` are accessed with
mandatory dictionary lookups in the source, so they are mandatory fields. -/
structure MfMeasureEntry where
  name : String
  agg : String
  description : Option String := none
  expr : Option String := none
deriving DecidableEq, Repr

/-- The `mf` entry of a dbt model node's meta mapping. -/
structure MfModelMeta where
  sql_table : Option String := none
  measures : Option (List MfMeasureEntry) := none
deriving DecidableEq, Repr

/-- A dbt model node's meta mapping, reduced to the one key read. -/
structure ModelMeta where
  mf : Option MfModelMeta := none
deriving DecidableEq, Repr

/-- The `mf` entry of a dbt column's meta mapping. -/
structure MfColMeta where
  mf_type : Option String := none
  name : Option String := none
  expr : Option String := none
  type : Option String := none
  type_params : Option DimensionTypeParams := none
  agg : Option String := none
deriving DecidableEq, Repr

/-- A dbt column's meta mapping, reduced to the one key read. -/
structure ColMeta where
  mf : Option MfColMeta := none
deriving DecidableEq, Repr

/-- A dbt column (`ColumnInfo`): name, description (empty string when unset,
mirroring Python falsiness) and meta. -/
structure DbtColumn where
  name : String
  description : String := ""
  meta : ColMeta := {}
deriving DecidableEq, Repr

/-- A dbt model node; `columns` is the ordered values of the column
mapping. -/
structure DbtModel where
  name : String
  description : String := ""
  meta : ModelMeta := {}
  columns : List DbtColumn := []
deriving DecidableEq, Repr

/-- A dbt manifest: the ordered `nodes` mapping, unique-id to node. -/
structure DbtManifest where
  nodes : List (String × DbtModel)
deriving DecidableEq, Repr

/-- `str.startswith` on character lists. -/
def charsStartWith : List Char → List Char → Bool
  | [], _ => true
  | _ :: _, [] => false
  | p :: ps, c :: cs => p = c && charsStartWith ps cs

/-- `__dbt_models`: the nodes whose unique id starts with `model.`. -/
def dbt_models (manifest : DbtManifest) : List DbtModel :=
  (manifest.nodes.filter (fun pr =>
    charsStartWith "model.".data pr.1.data)).map Prod.snd

/-- The mutable accumulator threaded through the per-model helpers. -/
structure PartialDataSource where
  sql_table : String
  issues : List ValidationIssue
  measures : List Measure
  identifiers : List Identifier
  dimensions : List Dimension
deriving DecidableEq, Repr

/-- The measure built from one `model.meta.mf.measures` entry (the loop body
of `__fill_dbt_model_meta`). -/
def meta_measure (measure : MfMeasureEntry) : Measure :=
  { name := measure.name,
    description := some (measure.description.getD measure.name),
    agg := measure.agg.toUpper,
    expr := some (measure.expr.getD measure.name) }

/-- `__fill_dbt_model_meta`: sql-table override and measures from the model
node's meta. -/
def fill_dbt_model_meta (pds : PartialDataSource) (dbt_model : DbtModel) :
    PartialDataSource :=
  match dbt_model.meta.mf with
  | none => pds
  | some mf =>
    let pds1 := { pds with sql_table := mf.sql_table.getD pds.sql_table }
    match mf.measures with
    | none =>
      { pds1 with issues := pds1.issues ++
          [ValidationError ("model.meta.mf.measures not found in model: " ++
            dbt_model.name)] }
    | some measures =>
      { pds1 with measures := pds1.measures ++ measures.map meta_measure }

/-- The measure built from a column whose meta declares `mf_type: measure`
with aggregation `agg` (the measure branch of `__fill_col`): the name is the
meta name override or else the column name, and the expression is the meta
expression or else the column name. -/
def col_measure (col : DbtColumn) (mf : MfColMeta) (agg : String) : Measure :=
  { name := mf.name.getD col.name,
    description := some (if col.description = "" then col.name
      else col.description),
    agg := AggregationType.for_name agg,
    expr := some (mf.expr.getD col.name) }

/-- `__fill_col`: identifier, dimension or measure from one column's meta. -/
def fill_col (pds : PartialDataSource) (col : DbtColumn) : PartialDataSource :=
  match col.meta.mf with
  | none => pds
  | some mf =>
    let mf_type := mf.mf_type
    let pds1 :=
      if mf_type = none then
        { pds with issues := pds.issues ++
            [ValidationError ("meta.mf.mf_type not found for col: " ++
              col.name)] }
      else pds
    let name := mf.name.getD col.name
    let description := if col.description = "" then col.name
      else col.description
    let expr := mf.expr.getD col.name
    let type_name := mf.type
    if mf_type = some "identifier" then
      match type_name with
      | none =>
        { pds1 with issues := pds1.issues ++
            [ValidationError ("meta.mf.type not found for col: " ++ col.name)] }
      | some tn =>
        { pds1 with identifiers := pds1.identifiers ++
            [{ name := name, description := some description,
               expr := some expr,
               type := IdentifierType.for_name tn.toUpper }] }
    else if mf_type = some "dimension" then
      match type_name with
      | none =>
        { pds1 with issues := pds1.issues ++
            [ValidationError ("meta.mf.type not found for col: " ++ col.name)] }
      | some tn =>
        { pds1 with dimensions := pds1.dimensions ++
            [{ name := name, description := some name, expr := some expr,
               type := DimensionType.for_name tn.toUpper,
               type_params := mf.type_params.map
                 DimensionTypeParams.parse_obj }] }
    else if mf_type = some "measure" then
      match mf.agg with
      | none =>
        { pds1 with issues := pds1.issues ++
            [ValidationError ("meta.mf.agg not found for col: " ++ col.name)] }
      | some agg =>
        { pds1 with measures := pds1.measures ++ [col_measure col mf agg] }
    else
      { pds1 with issues := pds1.issues ++
          [ValidationError ("invalid meta.mf.mf_type for col: " ++ col.name ++
            ", value: " ++ (match mf_type with
                            | none => "None"
                            | some s => s))] }

/-- `__to_data_source`: build one data source and its issues from a dbt model
node. -/
def to_data_source (dbt_model : DbtModel) : DataSource × List ValidationIssue :=
  let p0 : PartialDataSource :=
    { sql_table := "db.schema." ++ dbt_model.name, issues := [],
      identifiers := [], measures := [], dimensions := [] }
  let p1 := fill_dbt_model_meta p0 dbt_model
  let p2 := dbt_model.columns.foldl fill_col p1
  ({ name := dbt_model.name,
     sql_table := some p2.sql_table,
     description := if dbt_model.description = "" then dbt_model.name
       else dbt_model.description,
     identifiers := p2.identifiers,
     measures := p2.measures,
     dimensions := p2.dimensions }, p2.issues)

/-- One iteration of the `build_user_configured_model` loop: skip nodes whose
meta has no `mf` key, otherwise append the data source and extend the
issues. -/
def build_step (acc : List ValidationIssue × List DataSource)
    (model : DbtModel) : List ValidationIssue × List DataSource :=
  match model.meta.mf with
  | none => acc
  | some _ =>
    (acc.1 ++ (to_data_source model).2, acc.2 ++ [(to_data_source model).1])

/-- `build_user_configured_model`: transform a dbt manifest into a
`ModelBuildResult` (metrics empty; they come from the separate metrics
directory). -/
def build_user_configured_model (manifest : DbtManifest) : ModelBuildResult :=
  let acc := (dbt_models manifest).foldl build_step ([], [])
  { model := { data_sources := acc.2, metrics := [] },
    issues := ModelValidationResults.from_issues_sequence acc.1 }

/-- `parse_dbt_project_to_model` from `dbt_dir_to_model.py`.  The external
collaborators are parameters: `mf_build_result` stands for
`parse_directory_of_yaml_files_to_model(directory/metrics)` and `transform`
for `ModelTransformer.transform`.  The returned result carries the
transformed merged model but only the dbt transformation's issues. -/
def parse_dbt_project_to_model (manifest : DbtManifest)
    (mf_build_result : ModelBuildResult)
    (transform : UserConfiguredModel → UserConfiguredModel) :
    ModelBuildResult :=
  let dbt_build_result := build_user_configured_model manifest
  let merged := { dbt_build_result.model with
    metrics := mf_build_result.model.metrics }
  { model := transform merged, issues := dbt_build_result.issues }

/-! ### Concrete dbt fixtures used in counterexamples and witnesses -/

/-- A fresh partial data source, as `__to_data_source` creates it for a model
named `m1`. -/
def empty_partial : PartialDataSource :=
  { sql_table := "db.schema.m1", issues := [], measures := [],
    identifiers := [], dimensions := [] }

/-- A column declaring a measure whose meta name overrides the column name
and gives no expression. -/
def revenue_col : DbtColumn :=
  { name := "revenue",
    meta := { mf := some { mf_type := some "measure",
                           name := some "total_revenue",
                           agg := some "sum" } } }

/-- A column declaring a measure with no meta name override and no
expression. -/
def amount_col : DbtColumn :=
  { name := "amount",
    meta := { mf := some { mf_type := some "measure", agg := some "sum" } } }

/-- A column whose meta has an `mf` mapping but no `mf_type` key. -/
def untyped_col : DbtColumn :=
  { name := "c1", meta := { mf := some { name := some "n1" } } }

/-- A model node whose meta mapping has no `mf` key. -/
def plain_node : DbtModel := { name := "m1" }

/-- A `model.meta.mf.measures` entry without an expression. -/
def bookings_entry : MfMeasureEntry := { name := "bookings", agg := "sum" }

/-- The empty dbt manifest. -/
def empty_manifest : DbtManifest := { nodes := [] }

/-- A metrics-only model, standing for the result of parsing the metrics
YAML subdirectory. -/
def yaml_metrics_model : UserConfiguredModel :=
  { data_sources := [],
    metrics := [{ name := "revenue_metric", measures := ["revenue"] }] }

/-- A metrics-directory build result without issues. -/
def yaml_result_clean : ModelBuildResult :=
  { model := yaml_metrics_model, issues := { issues := [] } }

/-- The same metrics-directory build result with a validation issue. -/
def yaml_result_issue : ModelBuildResult :=
  { model := yaml_metrics_model,
    issues := { issues := [ValidationError "metric references invalid measure"] } }

/-- Strict lexicographic order on character lists (by code point). -/
def charsLt : List Char → List Char → Bool
  | [], [] => false
  | [], _ :: _ => true
  | _ :: _, [] => false
  | a :: as, b :: bs => a < b || (a = b && charsLt as bs)

/-- Strict lexicographic order on strings. -/
def strLex (a b : String) : Prop := charsLt a.data b.data = true

instance strLex.instDecidable (a b : String) : Decidable (strLex a b) :=
  instDecidableEqBool _ _

/-- The tie-break ordering claimed by the spec for the suggestion list:
descending similarity, ties broken by shorter candidate length and then by
lexicographic order. -/
def specTieBreak (q c d : String) : Prop :=
  simLt q d c ∨
    (simEq q c d ∧
      (c.length < d.length ∨ (c.length = d.length ∧ strLex c d)))

instance specTieBreak.instDecidable (q : String) :
    DecidableRel (specTieBreak q) :=
  fun c d =>
    inferInstanceAs (Decidable (simLt q d c ∨
      (simEq q c d ∧
        (c.length < d.length ∨ (c.length = d.length ∧ strLex c d)))))

instance instDecidableEqExcept {ε α : Type} [DecidableEq ε] [DecidableEq α] :
    DecidableEq (Except ε α) := fun a b =>
  match a, b with
  | .error e1, .error e2 => decidable_of_iff (e1 = e2) (by simp)
  | .ok v1, .ok v2 => decidable_of_iff (v1 = v2) (by simp)
  | .error _, .ok _ => isFalse (fun hc => Except.noConfusion hc)
  | .ok _, .error _ => isFalse (fun hc => Except.noConfusion hc)

/-! ### Helper lemmas about the suggestion engine -/

theorem mem_dedupFirst {c : String} :
    ∀ {l : List String}, c ∈ dedupFirst l ↔ c ∈ l := by
  intro l
  induction l with
  | nil => simp [dedupFirst]
  | cons x xs ih =>
    simp only [dedupFirst, List.mem_cons, List.mem_filter,
      decide_eq_true_eq]
    constructor
    · rintro (rfl | ⟨h1, _⟩)
      · exact Or.inl rfl
      · exact Or.inr (ih.mp h1)
    · rintro (rfl | h)
      · exact Or.inl rfl
      · by_cases hx : c = x
        · exact Or.inl hx
        · exact Or.inr ⟨ih.mpr h, hx⟩

theorem nodup_dedupFirst : ∀ (l : List String), (dedupFirst l).Nodup := by
  intro l
  induction l with
  | nil => simp [dedupFirst]
  | cons x xs ih =>
    rw [dedupFirst, List.nodup_cons]
    refine ⟨?_, ih.filter _⟩
    intro hmem
    have h := List.of_mem_filter hmem
    simp at h

theorem nodup_candList (q : String) (vocab : List String) :
    (candList q vocab).Nodup :=
  (nodup_dedupFirst vocab).filter _

theorem mem_candList {q c : String} {vocab : List String}
    (h : c ∈ candList q vocab) :
    c ∈ vocab ∧ c ≠ q ∧ simDen q c < 4 * lcsStr q c := by
  have h1 := List.mem_of_mem_filter h
  have h2 := List.of_mem_filter h
  rw [decide_eq_true_eq] at h2
  exact ⟨mem_dedupFirst.mp h1, h2⟩

theorem getElem?_of_mem_sorted {q : String} {vocab : List String}
    {p : Nat × String}
    (h : p ∈ List.insertionSort (sortRel q) (candList q vocab).enum) :
    (candList q vocab)[p.1]? = some p.2 :=
  List.mem_enum_iff_getElem?.mp
    ((List.perm_insertionSort (sortRel q) (candList q vocab).enum).mem_iff.mp h)

theorem mem_suggest {q c : String} {vocab : List String}
    (h : c ∈ suggest q vocab) : c ∈ candList q vocab := by
  unfold suggest at h
  have h1 := (List.take_sublist 6 _).subset h
  obtain ⟨p, hp, rfl⟩ := List.mem_map.mp h1
  obtain ⟨hlt, heq⟩ := List.getElem?_eq_some.mp (getElem?_of_mem_sorted hp)
  exact heq ▸ List.getElem_mem hlt

theorem suggest_pairwise (q : String) (vocab : List String) :
    List.Pairwise (tieOrder q vocab) (suggest q vocab) := by
  have hs : List.Pairwise (sortRel q)
      (List.insertionSort (sortRel q) (candList q vocab).enum) :=
    List.sorted_insertionSort _ _
  have hnodup : (List.insertionSort (sortRel q) (candList q vocab).enum).Nodup :=
    (List.perm_insertionSort _ _).nodup_iff.mpr
      ((List.nodup_enum_map_fst _).of_map _)
  have hpair := hs.and hnodup
  have htrans : List.Pairwise (fun a b : Nat × String => tieOrder q vocab a.2 b.2)
      (List.insertionSort (sortRel q) (candList q vocab).enum) := by
    refine hpair.imp_of_mem ?_
    intro a b ha hb hr
    obtain ⟨hr, hne⟩ := hr
    obtain ⟨hla, hea⟩ := List.getElem?_eq_some.mp (getElem?_of_mem_sorted ha)
    obtain ⟨hlb, heb⟩ := List.getElem?_eq_some.mp (getElem?_of_mem_sorted hb)
    rcases hr with hlt | ⟨heq, hle⟩
    · exact Or.inl hlt
    · refine Or.inr ⟨heq, ?_⟩
      have hia : (candList q vocab).indexOf a.2 = a.1 := by
        rw [← hea]
        exact List.indexOf_getElem (nodup_candList q vocab) _ _
      have hib : (candList q vocab).indexOf b.2 = b.1 := by
        rw [← heb]
        exact List.indexOf_getElem (nodup_candList q vocab) _ _
      rw [hia, hib]
      rcases Nat.lt_or_ge a.1 b.1 with hab | hab
      · exact hab
      · exfalso
        have h1 : a.1 = b.1 := Nat.le_antisymm hle hab
        apply hne
        refine Prod.ext h1 ?_
        rw [← hea, ← heb]
        congr 1
  have hmap := List.pairwise_map.mpr htrans
  exact List.Pairwise.sublist (List.take_sublist 6 _) hmap

/-! ### Claim theorems -/

/-- C1: on the two-data-source Scenario C model, querying metric `bookings`
grouped by the bare name `capacity_latest` fails with an
`UnresolvableDimension` error naming `capacity_latest` and `bookings`, whose
suggestion list is exactly `['listing__capacity_latest',
'listing__country_latest']` in that order. -/
theorem scenario_c_unresolvable_dimension :
    parse_and_validate_query scenario_c_model ["bookings"] ["capacity_latest"] =
      .error (.unresolvableDimension ["capacity_latest"] ["bookings"]
        [("capacity_latest",
          ["listing__capacity_latest", "listing__country_latest"])]) := by
  decide

/-- C2: on the Scenario A model, querying the misspelled metric `booking`
fails with an `UnknownMetric` error whose suggestion list is exactly
`['bookings', 'booking_value', 'instant_bookings', 'booking_payments',
'max_booking_value', 'min_booking_value']`, ranking `bookings` first. -/
theorem scenario_a_unknown_metric_suggestions :
    parse_and_validate_query scenario_ab_model ["booking"] ["is_instant"] =
      .error (.unknownMetric "booking"
        ["bookings", "booking_value", "instant_bookings", "booking_payments",
         "max_booking_value", "min_booking_value"]) := by
  decide

/-- C5: on the Scenario B model, querying metric `bookings` grouped by the
misspelled `is_instan` fails with an `UnknownElement` error whose suggestion
list is exactly `['is_instant']`. -/
theorem scenario_b_unknown_element_suggestions :
    parse_and_validate_query scenario_ab_model ["bookings"] ["is_instan"] =
      .error (.unknownElement "is_instan" ["is_instant"]) := by
  decide

/-- C3 counterexample: the suggestion list observed for input `booking` over
the Scenario A metric vocabulary is not ordered by the claimed tie-break
(descending similarity, ties by shorter length then lexicographic order):
`instant_bookings` precedes `booking_payments` although the two are equally
similar, of equal length, and `booking_payments` is lexicographically
smaller. -/
theorem spec_tiebreak_refuted :
    ¬ List.Pairwise (specTieBreak "booking")
        (suggest "booking" (metric_vocab scenario_ab_model)) := by
  decide

/-- C3 (amended): every suggestion is a vocabulary entry distinct from the
input with similarity strictly above the threshold, the list has length at
most 6, and it is sorted by descending similarity with ties kept in
vocabulary order (the sort is stable; ties are not re-ordered by length or
lexicographic order). -/
theorem suggestion_engine_properties (q : String) (vocab : List String) :
    (∀ c ∈ suggest q vocab,
      c ∈ vocab ∧ c ≠ q ∧ simDen q c < 4 * lcsStr q c) ∧
    (suggest q vocab).length ≤ 6 ∧
    List.Pairwise (tieOrder q vocab) (suggest q vocab) := by
  refine ⟨?_, ?_, suggest_pairwise q vocab⟩
  · intro c hc
    exact mem_candList (mem_suggest hc)
  · unfold suggest
    exact List.length_take_le 6 _

/-- C3 witness: the amended suggestion-engine properties instantiated at
input `booking` over the Scenario A metric vocabulary. -/
theorem suggestion_engine_properties_witness :
    (∀ c ∈ suggest "booking" (metric_vocab scenario_ab_model),
      c ∈ metric_vocab scenario_ab_model ∧ c ≠ "booking" ∧
        simDen "booking" c < 4 * lcsStr "booking" c) ∧
    (suggest "booking" (metric_vocab scenario_ab_model)).length ≤ 6 ∧
    List.Pairwise (tieOrder "booking" (metric_vocab scenario_ab_model))
      (suggest "booking" (metric_vocab scenario_ab_model)) :=
  suggestion_engine_properties "booking" (metric_vocab scenario_ab_model)

/-- C4: when every requested metric resolves and every group-by element name
is known to the model, all group-bys that fail to resolve are reported
together: the validator raises the single aggregated `UnresolvableDimension`
error listing every failed group-by and the requested metrics, rather than
failing fast on the first failure. -/
theorem group_by_failures_batched (m : UserConfiguredModel)
    (metric_names group_by_names : List String)
    (h1 : ∀ n ∈ metric_names, m.metrics.any (fun mt => mt.name = n) = true)
    (h2 : ∀ g ∈ group_by_names,
      (element_vocab m).contains (element_name g) = true)
    (h3 : 2 ≤ (failed_group_bys m metric_names group_by_names).length) :
    parse_and_validate_query m metric_names group_by_names =
      .error (.unresolvableDimension
        (failed_group_bys m metric_names group_by_names) metric_names
        ((failed_group_bys m metric_names group_by_names).map (fun g =>
          (g, suggest g (reachable_dim_vocab m
            (local_data_sources m metric_names)))))) := by
  have hf1 : metric_names.find? (fun n =>
      !(m.metrics.any (fun mt => mt.name = n))) = none := by
    rw [List.find?_eq_none]
    intro x hx
    show ¬ (!(m.metrics.any (fun mt => mt.name = x))) = true
    rw [h1 x hx]
    decide
  have hf2 : group_by_names.find? (fun g =>
      !((element_vocab m).contains (element_name g))) = none := by
    rw [List.find?_eq_none]
    intro g hg
    show ¬ (!((element_vocab m).contains (element_name g))) = true
    rw [h2 g hg]
    decide
  have hne : (failed_group_bys m metric_names group_by_names).isEmpty = false := by
    rw [List.isEmpty_eq_false]
    intro hnil
    rw [hnil] at h3
    simp at h3
  unfold parse_and_validate_query
  rw [hf1, hf2]
  simp [hne]

/-- C4 witness: on the Scenario C model with the two unresolvable group-bys
`capacity_latest` and `country_latest`, the single error lists both. -/
theorem group_by_failures_batched_witness :
    ((∀ n ∈ ["bookings"],
        scenario_c_model.metrics.any (fun mt => mt.name = n) = true) ∧
      (∀ g ∈ ["capacity_latest", "country_latest"],
        (element_vocab scenario_c_model).contains (element_name g) = true) ∧
      2 ≤ (failed_group_bys scenario_c_model ["bookings"]
        ["capacity_latest", "country_latest"]).length) ∧
    parse_and_validate_query scenario_c_model ["bookings"]
        ["capacity_latest", "country_latest"] =
      .error (.unresolvableDimension
        (failed_group_bys scenario_c_model ["bookings"]
          ["capacity_latest", "country_latest"]) ["bookings"]
        ((failed_group_bys scenario_c_model ["bookings"]
          ["capacity_latest", "country_latest"]).map (fun g =>
            (g, suggest g (reachable_dim_vocab scenario_c_model
              (local_data_sources scenario_c_model ["bookings"])))))) :=
  ⟨⟨by decide, by decide, by decide⟩,
    group_by_failures_batched scenario_c_model ["bookings"]
      ["capacity_latest", "country_latest"] (by decide) (by decide) (by decide)⟩

/-- C6: whenever some requested metric is absent from the model, the
validator fails with `UnknownMetric` for an absent metric, and every
attached suggestion is drawn from the model's metric names plus the names of
measures flagged as metric-generating. -/
theorem unknown_metric_vocabulary (m : UserConfiguredModel)
    (metric_names group_by_names : List String) (n : String)
    (hn : n ∈ metric_names)
    (habs : m.metrics.any (fun mt => mt.name = n) = false) :
    ∃ bad, bad ∈ metric_names ∧
      m.metrics.any (fun mt => mt.name = bad) = false ∧
      parse_and_validate_query m metric_names group_by_names =
        .error (.unknownMetric bad (suggest bad (metric_vocab m))) ∧
      ∀ s ∈ suggest bad (metric_vocab m),
        s ∈ m.metrics.map Metric.name ++
          m.data_sources.flatMap (fun ds =>
            (ds.measures.filter (fun me => me.create_metric = some true)).map
              Measure.name) := by
  have hsome : (metric_names.find? (fun n2 =>
      !(m.metrics.any (fun mt => mt.name = n2)))).isSome = true := by
    rw [List.find?_isSome]
    exact ⟨n, hn, by simp [habs]⟩
  obtain ⟨bad, hbad⟩ := Option.isSome_iff_exists.mp hsome
  have hp := List.find?_some hbad
  have hmem := List.mem_of_find?_eq_some hbad
  refine ⟨bad, hmem, ?_, ?_, ?_⟩
  · simpa using hp
  · unfold parse_and_validate_query
    rw [hbad]
  · intro s hs
    have h2 := (mem_candList (mem_suggest hs)).1
    unfold metric_vocab at h2
    exact mem_dedupFirst.mp h2

/-- C6 witness: the theorem instantiated on the Scenario A model with the
absent metric `booking`. -/
theorem unknown_metric_vocabulary_witness :
    ("booking" ∈ ["booking"] ∧
      scenario_ab_model.metrics.any
        (fun mt => mt.name = "booking") = false) ∧
    ∃ bad, bad ∈ ["booking"] ∧
      scenario_ab_model.metrics.any (fun mt => mt.name = bad) = false ∧
      parse_and_validate_query scenario_ab_model ["booking"] ["is_instant"] =
        .error (.unknownMetric bad
          (suggest bad (metric_vocab scenario_ab_model))) ∧
      ∀ s ∈ suggest bad (metric_vocab scenario_ab_model),
        s ∈ scenario_ab_model.metrics.map Metric.name ++
          scenario_ab_model.data_sources.flatMap (fun ds =>
            (ds.measures.filter (fun me => me.create_metric = some true)).map
              Measure.name) :=
  ⟨⟨by decide, by decide⟩,
    unknown_metric_vocabulary scenario_ab_model ["booking"] ["is_instant"]
      "booking" (by decide) (by decide)⟩

/-- C7 counterexample: a column named `revenue` declaring a measure with an
overriding meta name `total_revenue` and no expression yields a measure whose
expression is the column name `revenue`, not the measure's own name. -/
theorem col_measure_expr_counterexample :
    (revenue_col.meta.mf.map MfColMeta.expr = some none) ∧
    (fill_col empty_partial revenue_col).measures =
      [{ name := "total_revenue", agg := "sum", expr := some "revenue",
         description := some "revenue" }] ∧
    ¬ ∀ me ∈ (fill_col empty_partial revenue_col).measures,
        me.expr = some me.name := by
  decide

/-- C7 (amended): a measure declared in `model.meta.mf.measures` with no
expression gets the measure's name as its expression; a measure declared as a
column with no expression gets the column's name as its expression, which
coincides with the measure's name exactly when the meta gives no overriding
name. -/
theorem measure_expr_defaults (e : MfMeasureEntry) (pds : PartialDataSource)
    (col : DbtColumn) (mfc : MfColMeta) (agg : String)
    (h1 : col.meta.mf = some mfc) (h2 : mfc.mf_type = some "measure")
    (h3 : mfc.agg = some agg) (he : e.expr = none) (h4 : mfc.expr = none) :
    (meta_measure e).expr = some (meta_measure e).name ∧
    fill_col pds col =
      { pds with measures := pds.measures ++ [col_measure col mfc agg] } ∧
    (col_measure col mfc agg).expr = some col.name ∧
    (mfc.name = none →
      (col_measure col mfc agg).expr = some (col_measure col mfc agg).name) := by
  refine ⟨?_, ?_, ?_, ?_⟩
  · simp [meta_measure, he]
  · unfold fill_col
    rw [h1]
    simp [h2, h3]
  · simp [col_measure, h4]
  · intro hn
    simp [col_measure, h4, hn]

/-- C7 witness: the amended defaults instantiated at the meta entry
`bookings` and at the column `amount` without a name override. -/
theorem measure_expr_defaults_witness :
    (amount_col.meta.mf = some { mf_type := some "measure", agg := some "sum" } ∧
      bookings_entry.expr = none) ∧
    ((meta_measure bookings_entry).expr =
        some (meta_measure bookings_entry).name ∧
      fill_col empty_partial amount_col =
        { empty_partial with measures := empty_partial.measures ++
            [col_measure amount_col
              { mf_type := some "measure", agg := some "sum" } "sum"] } ∧
      (col_measure amount_col
          { mf_type := some "measure", agg := some "sum" } "sum").expr =
        some amount_col.name ∧
      (({ mf_type := some "measure", agg := some "sum" } : MfColMeta).name = none →
        (col_measure amount_col
            { mf_type := some "measure", agg := some "sum" } "sum").expr =
          some (col_measure amount_col
            { mf_type := some "measure", agg := some "sum" } "sum").name)) :=
  ⟨⟨by decide, by decide⟩,
    measure_expr_defaults bookings_entry empty_partial amount_col
      { mf_type := some "measure", agg := some "sum" } "sum"
      (by decide) (by decide) (by decide) (by decide) (by decide)⟩

/-- C8: `parse_dbt_project_to_model` returns exactly the dbt transformation's
issues — its result is unchanged when the metrics-directory parse carries
different issues with the same model — while the metrics of the
metrics-directory parse are kept in the merged model. -/
theorem yaml_issues_discarded (manifest : DbtManifest)
    (mf_build_result : ModelBuildResult)
    (transform : UserConfiguredModel → UserConfiguredModel) :
    (parse_dbt_project_to_model manifest mf_build_result transform).issues =
      (build_user_configured_model manifest).issues ∧
    (parse_dbt_project_to_model manifest mf_build_result
        (fun x => x)).model.metrics = mf_build_result.model.metrics ∧
    ∀ other : ModelBuildResult, other.model = mf_build_result.model →
      parse_dbt_project_to_model manifest other transform =
        parse_dbt_project_to_model manifest mf_build_result transform := by
  refine ⟨rfl, rfl, ?_⟩
  intro other h
  unfold parse_dbt_project_to_model
  rw [h]

/-- C8 witness: two metrics-directory results sharing a model but differing
in issues produce identical final results. -/
theorem yaml_issues_discarded_witness :
    (yaml_result_issue.model = yaml_result_clean.model) ∧
    parse_dbt_project_to_model empty_manifest yaml_result_issue (fun x => x) =
      parse_dbt_project_to_model empty_manifest yaml_result_clean
        (fun x => x) :=
  ⟨by decide,
    (yaml_issues_discarded empty_manifest yaml_result_clean (fun x => x)).2.2
      yaml_result_issue (by decide)⟩

/-- C9: a model node whose meta mapping has no `mf` key contributes neither a
data source nor any validation issue: removing it from the manifest leaves
`build_user_configured_model` unchanged. -/
theorem node_without_mf_skipped (pre post : List (String × DbtModel))
    (nm : String) (node : DbtModel) (h : node.meta.mf = none) :
    build_user_configured_model { nodes := pre ++ (nm, node) :: post } =
      build_user_configured_model { nodes := pre ++ post } := by
  have hstep : ∀ acc, build_step acc node = acc := by
    intro acc
    unfold build_step
    rw [h]
  unfold build_user_configured_model dbt_models
  by_cases hb : charsStartWith "model.".data nm.data = true
  · simp [List.filter_append, List.filter_cons, hb, hstep]
  · rw [Bool.not_eq_true] at hb
    simp [List.filter_append, List.filter_cons, hb]

/-- C9 witness: a manifest holding only a meta-less model node builds the
same empty result as the empty manifest. -/
theorem node_without_mf_skipped_witness :
    (plain_node.meta.mf = none) ∧
    build_user_configured_model { nodes := [("model.m1", plain_node)] } =
      build_user_configured_model { nodes := [] } :=
  ⟨by decide, node_without_mf_skipped [] [] "model.m1" plain_node (by decide)⟩

/-- C10: a column whose meta `mf` mapping is present but lacks `mf_type`
contributes exactly two validation errors — `mf_type not found` followed by
`invalid ... value: None` — and no identifier, dimension or measure. -/
theorem missing_mf_type_two_errors (pds : PartialDataSource) (col : DbtColumn)
    (mfc : MfColMeta) (h1 : col.meta.mf = some mfc) (h2 : mfc.mf_type = none) :
    fill_col pds col = { pds with issues := pds.issues ++
      [ValidationError ("meta.mf.mf_type not found for col: " ++ col.name),
       ValidationError ("invalid meta.mf.mf_type for col: " ++ col.name ++
         ", value: None")] } := by
  unfold fill_col
  rw [h1]
  simp [h2, ValidationError, String.append_assoc]

/-- C10 witness: the two errors produced for the concrete untyped column. -/
theorem missing_mf_type_two_errors_witness :
    (untyped_col.meta.mf = some { name := some "n1" } ∧
      ({ name := some "n1" } : MfColMeta).mf_type = none) ∧
    fill_col empty_partial untyped_col =
      { empty_partial with issues := empty_partial.issues ++
          [ValidationError ("meta.mf.mf_type not found for col: " ++
            untyped_col.name),
           ValidationError ("invalid meta.mf.mf_type for col: " ++
             untyped_col.name ++ ", value: None")] } :=
  ⟨⟨by decide, by decide⟩,
    missing_mf_type_two_errors empty_partial untyped_col { name := some "n1" }
      (by decide) (by decide)⟩

end MetricFlow
